import Mathlib

/-!
# Verification of the Northwoods housing-resource CRUD service

Shallow embedding of the resource endpoints (`app/api/resources.py`) over the
SQLAlchemy model (`app/models.py`) and Pydantic schemas (`app/schemas.py`).

Modelling conventions:
* A database state is a `List Resource` (the `resources` table, in physical
  row order; `first()` takes the first matching row in that order).
* SQL `NULL`-able columns are `Option` fields; timestamps are `Nat` ticks.
* Latitude/longitude and money columns are `ℚ` (exact values of the floats
  the service passes through; the service itself does no float arithmetic —
  the only arithmetic, miles to meters, is the literal product also stated
  by the spec).
* The PostGIS geodesic distance is an uninterpreted parameter
  `gd : Point → Point → ℚ`: the code delegates `ST_Distance`/`ST_DWithin`
  to the database engine, and `ST_DWithin a b r` is `gd a b ≤ r`, false
  when a geography argument is `NULL`.
* `commit : Except String Unit` is the outcome of `db.commit()`: `.ok` or an
  exception carrying its message.  On failure the handler rolls back, so the
  resulting state is the input state.
* SQL `ILIKE` is embedded as `%`/`_` wildcard matching on lowercased
  strings (backslash escape sequences, which no handler ever produces, are
  not modelled: every non-wildcard character matches itself).
-/

/-- Geographic point: `POINT(longitude latitude)` with SRID 4326. -/
structure Point where
  longitude : ℚ
  latitude : ℚ
deriving DecidableEq

/-- `ResourceCategory` enum from `app/models.py`. -/
inductive ResourceCategory where
  | food
  | shelter
  | healthcare
  | waste_disposal
  | propane
  | camping
  | day_center
  | hygiene
  | mail_address
  | wifi_charging
  | case_management
  | transportation
  | assistance_program
  | land_opportunity
  | legal_aid
  | employment
  | education
  | veterans
  | other
deriving DecidableEq

/-- The string value of a `ResourceCategory` member. -/
def ResourceCategory.value : ResourceCategory → String
  | .food => "food"
  | .shelter => "shelter"
  | .healthcare => "healthcare"
  | .waste_disposal => "waste_disposal"
  | .propane => "propane"
  | .camping => "camping"
  | .day_center => "day_center"
  | .hygiene => "hygiene"
  | .mail_address => "mail_address"
  | .wifi_charging => "wifi_charging"
  | .case_management => "case_management"
  | .transportation => "transportation"
  | .assistance_program => "assistance_program"
  | .land_opportunity => "land_opportunity"
  | .legal_aid => "legal_aid"
  | .employment => "employment"
  | .education => "education"
  | .veterans => "veterans"
  | .other => "other"

/-- `AccessTier` enum from `app/models.py`. -/
inductive AccessTier where
  | public
  | verified_user
  | trusted_verifier
  | admin
deriving DecidableEq

/-- A row of the `resources` table (`app/models.py`, class `Resource`). -/
structure Resource where
  id : Nat
  resource_type : ResourceCategory
  name : String
  description : Option String := none
  address : Option String := none
  location : Option Point := none
  county : String
  town : Option String := none
  phone : Option String := none
  email : Option String := none
  website : Option String := none
  hours_of_operation : Option String := none
  seasonal_availability_summer : Option Bool := some true
  seasonal_availability_winter : Option Bool := some true
  restrictions : Option String := none
  access_tier : AccessTier := .public
  last_verified_date : Option Nat := none
  verification_source : Option String := none
  verification_confidence : Int := 50
  created_at : Nat := 0
  updated_at : Nat := 0
  created_by : Option Nat := none
  is_active : Bool := true
  capacity : Option Int := none
  cost_info : Option String := none
  languages_supported : Option (List String) := none
  dump_station_fee : Option ℚ := none
  propane_price_per_gallon : Option ℚ := none
  camping_nightly_rate : Option ℚ := none
deriving DecidableEq

/-- Body of `POST /api/resources/` (`schemas.ResourceCreate`). -/
structure ResourceCreate where
  resource_type : ResourceCategory
  name : String
  description : Option String := none
  address : Option String := none
  county : String
  town : Option String := none
  phone : Option String := none
  email : Option String := none
  website : Option String := none
  hours_of_operation : Option String := none
  seasonal_availability_summer : Bool := true
  seasonal_availability_winter : Bool := true
  restrictions : Option String := none
  access_tier : AccessTier := .public
  capacity : Option Int := none
  cost_info : Option String := none
  languages_supported : Option (List String) := none
  dump_station_fee : Option ℚ := none
  propane_price_per_gallon : Option ℚ := none
  camping_nightly_rate : Option ℚ := none
  latitude : Option ℚ := none
  longitude : Option ℚ := none
deriving DecidableEq

/-- Body of `PUT /api/resources/{id}` (`schemas.ResourceUpdate`).

Pydantic distinguishes a field that is absent (`exclude_unset` drops it)
from a field explicitly set to `null`, so every nullable column is a
two-level option: `none` = not supplied, `some v` = supplied with value `v`
(`v : Option _`, `none` meaning SQL `NULL`).  `name` is a `NOT NULL`
column, so only the non-null assignment is representable (supplying
`name: null` is rejected by the database at commit, a path covered by the
commit-failure oracle). -/
structure ResourceUpdate where
  name : Option String := none
  description : Option (Option String) := none
  address : Option (Option String) := none
  phone : Option (Option String) := none
  email : Option (Option String) := none
  website : Option (Option String) := none
  hours_of_operation : Option (Option String) := none
  seasonal_availability_summer : Option (Option Bool) := none
  seasonal_availability_winter : Option (Option Bool) := none
  restrictions : Option (Option String) := none
  capacity : Option (Option Int) := none
  cost_info : Option (Option String) := none
  dump_station_fee : Option (Option ℚ) := none
  propane_price_per_gallon : Option (Option ℚ) := none
  camping_nightly_rate : Option (Option ℚ) := none
  latitude : Option ℚ := none
  longitude : Option ℚ := none
deriving DecidableEq

/-- An `HTTPException(status_code, detail)`. -/
structure ApiError where
  status_code : Nat
  detail : String
deriving DecidableEq

/-- The generic 404 raised by every handler: `HTTPException(404, "Resource not found")`. -/
def notFoundError : ApiError := ⟨404, "Resource not found"⟩

/-- Result of a handler that may write: the table state after the call and
the HTTP response (`.ok` payload or raised `HTTPException`). -/
structure WriteResult (α : Type) where
  db : List Resource
  response : Except ApiError α

/-- SQL `LIKE` pattern matching: `%` matches any sequence, `_` any single
character, all other characters themselves. -/
def likeMatch : List Char → List Char → Bool
  | [], s => s.isEmpty
  | p :: ps, s =>
    if p = '%' then
      likeMatch ps s ||
        (match s with
         | [] => false
         | _ :: s2 => likeMatch (p :: ps) s2)
    else
      match s with
      | [] => false
      | c :: s2 => (p == '_' || p == c) && likeMatch ps s2
termination_by p s => p.length + s.length
decreasing_by
  all_goals simp [List.length_cons]
  all_goals omega

/-- SQL `ILIKE`: case-insensitive `LIKE` (both sides lowercased
character by character, as `String.toLower` does). -/
def sqlILike (s pat : String) : Bool :=
  likeMatch (pat.data.map Char.toLower) (s.data.map Char.toLower)

/-- Query parameters of `GET /api/resources/` (defaults as in the handler
signature: `limit = 50`, `offset = 0`). -/
structure ListParams where
  resource_type : Option String := none
  county : Option String := none
  latitude : Option ℚ := none
  longitude : Option ℚ := none
  radius_miles : Option ℚ := none
  seasonal_winter : Option Bool := none
  limit : Nat := 50
  offset : Nat := 0
deriving DecidableEq

/-- The conjunction of predicates `list_resources` attaches to its query:
`is_active == True`, then each filter the handler decides to apply.
`if resource_type:` / `if county:` are Python truthiness tests, so an
empty-string parameter applies no filter; `seasonal_winter` is compared
with SQL three-valued equality (a `NULL` column never matches); the
proximity conjunct is `ST_DWithin(location, point, radius_miles * 1609.34)`
and is only attached when latitude, longitude and radius are all given. -/
def matchesFilters (gd : Point → Point → ℚ) (p : ListParams) (r : Resource) : Bool :=
  r.is_active
    && (match p.resource_type with
        | some s => if s = "" then true else r.resource_type.value == s
        | none => true)
    && (match p.county with
        | some c => if c = "" then true else sqlILike r.county ("%" ++ c ++ "%")
        | none => true)
    && (match p.seasonal_winter with
        | some b => r.seasonal_availability_winter == some b
        | none => true)
    && (match p.latitude, p.longitude, p.radius_miles with
        | some la, some lo, some rm =>
          match r.location with
          | some loc => decide (gd loc ⟨lo, la⟩ ≤ rm * (160934 / 100))
          | none => false
        | _, _, _ => true)

/-- Sort key of the proximity branch: `ST_Distance(location, point)`.
Rows reaching the `ORDER BY` of that branch always have a location
(`ST_DWithin` already discarded `NULL` ones); the default is irrelevant. -/
def distTo (gd : Point → Point → ℚ) (lo la : ℚ) (r : Resource) : ℚ :=
  match r.location with
  | some loc => gd loc ⟨lo, la⟩
  | none => 0

/-- Comparator of the proximity branch: ascending `ST_Distance`. -/
def distLe (gd : Point → Point → ℚ) (lo la : ℚ) (a b : Resource) : Bool :=
  decide (distTo gd lo la a ≤ distTo gd lo la b)

/-- Comparator of the default branch: ascending `name`. -/
def nameLe (a b : Resource) : Bool :=
  decide (a.name ≤ b.name)

/-- Response shape of `GET /api/resources/` (`schemas.ResourceListResponse`). -/
structure ListResult where
  total : Nat
  items : List Resource
  limit : Nat
  offset : Nat
deriving DecidableEq

/-- `GET /api/resources/` (`list_resources` in `app/api/resources.py`):
filter, order (distance if latitude+longitude+radius were all supplied,
name otherwise), count before pagination, then `offset`/`limit`. -/
def list_resources (gd : Point → Point → ℚ) (db : List Resource) (p : ListParams) :
    ListResult :=
  let filtered := db.filter (matchesFilters gd p)
  let sorted :=
    match p.latitude, p.longitude, p.radius_miles with
    | some la, some lo, some _ => filtered.mergeSort (distLe gd lo la)
    | _, _, _ => filtered.mergeSort nameLe
  { total := filtered.length
    items := (sorted.drop p.offset).take p.limit
    limit := p.limit
    offset := p.offset }

/-- The row `create_resource` builds: the request fields, `location` set
only when both coordinates were supplied, and the column defaults
(`is_active = True`, `verification_confidence = 50`, timestamps `now`). -/
def resourceOfCreate (newId now : Nat) (req : ResourceCreate) : Resource :=
  { id := newId
    resource_type := req.resource_type
    name := req.name
    description := req.description
    address := req.address
    location :=
      match req.latitude, req.longitude with
      | some la, some lo => some ⟨lo, la⟩
      | _, _ => none
    county := req.county
    town := req.town
    phone := req.phone
    email := req.email
    website := req.website
    hours_of_operation := req.hours_of_operation
    seasonal_availability_summer := some req.seasonal_availability_summer
    seasonal_availability_winter := some req.seasonal_availability_winter
    restrictions := req.restrictions
    access_tier := req.access_tier
    last_verified_date := none
    verification_source := none
    verification_confidence := 50
    created_at := now
    updated_at := now
    created_by := none
    is_active := true
    capacity := req.capacity
    cost_info := req.cost_info
    languages_supported := req.languages_supported
    dump_station_fee := req.dump_station_fee
    propane_price_per_gallon := req.propane_price_per_gallon
    camping_nightly_rate := req.camping_nightly_rate }

/-- `POST /api/resources/` (`create_resource`): insert the new row (the
primary key `newId` is assigned by the database sequence), commit; on
failure roll back and raise 400 with the exception text. -/
def create_resource (commit : Except String Unit) (db : List Resource)
    (newId now : Nat) (req : ResourceCreate) : WriteResult Resource :=
  let r := resourceOfCreate newId now req
  match commit with
  | .ok _ => ⟨db ++ [r], .ok r⟩
  | .error e => ⟨db, .error ⟨400, "Error creating resource: " ++ e⟩⟩

/-- `GET /api/resources/{id}` (`get_resource`): first row with this id that
is active, else 404. -/
def get_resource (db : List Resource) (rid : Nat) : Except ApiError Resource :=
  match db.find? (fun r => r.id == rid && r.is_active) with
  | some r => .ok r
  | none => .error notFoundError

/-- Replace the first element satisfying `p` by its image under `f`. -/
def replaceFirst {α : Type} (p : α → Bool) (f : α → α) : List α → List α
  | [] => []
  | r :: rs => if p r then f r :: rs else r :: replaceFirst p f rs

/-- The assignments `update_resource` performs on the fetched row:
each field present in `dict(exclude_unset=True)` is `setattr`ed
(latitude/longitude are excluded from that dict, and `location` is set
only when both were supplied); `updated_at` is the column's `onupdate`. -/
def applyUpdate (now : Nat) (u : ResourceUpdate) (r : Resource) : Resource :=
  { r with
    name := u.name.getD r.name
    description := u.description.getD r.description
    address := u.address.getD r.address
    phone := u.phone.getD r.phone
    email := u.email.getD r.email
    website := u.website.getD r.website
    hours_of_operation := u.hours_of_operation.getD r.hours_of_operation
    seasonal_availability_summer :=
      u.seasonal_availability_summer.getD r.seasonal_availability_summer
    seasonal_availability_winter :=
      u.seasonal_availability_winter.getD r.seasonal_availability_winter
    restrictions := u.restrictions.getD r.restrictions
    capacity := u.capacity.getD r.capacity
    cost_info := u.cost_info.getD r.cost_info
    dump_station_fee := u.dump_station_fee.getD r.dump_station_fee
    propane_price_per_gallon :=
      u.propane_price_per_gallon.getD r.propane_price_per_gallon
    camping_nightly_rate := u.camping_nightly_rate.getD r.camping_nightly_rate
    location :=
      match u.latitude, u.longitude with
      | some la, some lo => some ⟨lo, la⟩
      | _, _ => r.location
    updated_at := now }

/-- `PUT /api/resources/{id}` (`update_resource`): first active row with
this id, else 404; apply the supplied fields, commit; on failure roll back
and raise 400 with the exception text. -/
def update_resource (commit : Except String Unit) (db : List Resource)
    (rid : Nat) (now : Nat) (u : ResourceUpdate) : WriteResult Resource :=
  match db.find? (fun r => r.id == rid && r.is_active) with
  | none => ⟨db, .error notFoundError⟩
  | some r =>
    match commit with
    | .ok _ =>
      ⟨replaceFirst (fun x => x.id == rid && x.is_active) (applyUpdate now u) db,
        .ok (applyUpdate now u r)⟩
    | .error e => ⟨db, .error ⟨400, "Error updating resource: " ++ e⟩⟩

/-- `DELETE /api/resources/{id}` (`delete_resource`): first row with this
id — active or not — else 404; set `is_active = False`, commit; on failure
roll back and raise 400 with the exception text.  Success is 204 with no
body (`.ok ()`). -/
def delete_resource (commit : Except String Unit) (db : List Resource)
    (rid : Nat) : WriteResult Unit :=
  match db.find? (fun r => r.id == rid) with
  | none => ⟨db, .error notFoundError⟩
  | some _ =>
    match commit with
    | .ok _ =>
      ⟨replaceFirst (fun r => r.id == rid) (fun r => { r with is_active := false }) db,
        .ok ()⟩
    | .error e => ⟨db, .error ⟨400, "Error deleting resource: " ++ e⟩⟩

/-! ## Helper lemmas -/

theorem length_replaceFirst {α : Type} (p : α → Bool) (f : α → α) (l : List α) :
    (replaceFirst p f l).length = l.length := by
  induction l with
  | nil => rfl
  | cons a l ih => by_cases h : p a <;> simp [replaceFirst, h, ih]

theorem replaceFirst_of_find? {α : Type} {p : α → Bool} (f : α → α) {l : List α} {r : α}
    (h : l.find? p = some r) :
    ∃ l1 l2, l = l1 ++ r :: l2 ∧ (∀ x ∈ l1, p x = false) ∧
      replaceFirst p f l = l1 ++ f r :: l2 := by
  induction l with
  | nil => simp at h
  | cons a l ih =>
    by_cases ha : p a
    · rw [List.find?_cons_of_pos l ha] at h
      cases h
      exact ⟨[], l, rfl, by simp, by simp [replaceFirst, ha]⟩
    · rw [List.find?_cons_of_neg l ha] at h
      obtain ⟨l1, l2, hl, hnot, hrep⟩ := ih h
      refine ⟨a :: l1, l2, by simp [hl], ?_, ?_⟩
      · intro x hx
        rcases List.mem_cons.mp hx with rfl | hx
        · simpa using ha
        · exact hnot x hx
      · simp [replaceFirst, ha, hrep]

theorem mem_items_of_list_resources {gd : Point → Point → ℚ} {db : List Resource}
    {p : ListParams} {r : Resource} (h : r ∈ (list_resources gd db p).items) :
    r ∈ db ∧ matchesFilters gd p r = true := by
  have h2 : r ∈ db.filter (matchesFilters gd p) := by
    simp only [list_resources] at h
    split at h <;>
      exact List.mem_mergeSort.mp (List.mem_of_mem_drop (List.mem_of_mem_take h))
  exact ⟨(List.mem_filter.mp h2).1, (List.mem_filter.mp h2).2⟩

/-! ## Claims -/

/-- Claim C4: for every listing call, the returned `total` is the number of
rows matching the filters before pagination; for a fixed database and fixed
filters it is invariant under every choice of `limit` and `offset`; and
`items` is the page of at most `limit` matching rows obtained by dropping
`offset` rows from the ordered matching rows. -/
theorem c4_total_prepagination (gd : Point → Point → ℚ) (db : List Resource)
    (p : ListParams) (limit2 offset2 : Nat) :
    (list_resources gd db p).total = (db.filter (matchesFilters gd p)).length ∧
    (list_resources gd db { p with limit := limit2, offset := offset2 }).total
      = (list_resources gd db p).total ∧
    (list_resources gd db p).items.length ≤ p.limit ∧
    ∃ sorted : List Resource, sorted.Perm (db.filter (matchesFilters gd p)) ∧
      (list_resources gd db p).items = (sorted.drop p.offset).take p.limit := by
  refine ⟨rfl, rfl, ?_, ?_⟩
  · simp only [list_resources]
    split <;> exact List.length_take_le _ _
  · simp only [list_resources]
    split
    · exact ⟨_, List.mergeSort_perm _ _, rfl⟩
    · exact ⟨_, List.mergeSort_perm _ _, rfl⟩

/-- Claim C6: when only a proper subset of latitude/longitude/radius_miles
is supplied, no error is raised and proximity filtering is silently
skipped: the response equals that of the same call with none of the three
supplied. -/
theorem c6_partial_coordinates_ignored (gd : Point → Point → ℚ)
    (db : List Resource) (p : ListParams)
    (h : ¬(p.latitude.isSome ∧ p.longitude.isSome ∧ p.radius_miles.isSome)) :
    list_resources gd db p =
      list_resources gd db
        { p with latitude := none, longitude := none, radius_miles := none } := by
  have hm : ∀ r ∈ db, matchesFilters gd p r =
      matchesFilters gd
        { p with latitude := none, longitude := none, radius_miles := none } r := by
    intro r _
    rcases hla : p.latitude with _ | la
    · rcases hlo : p.longitude with _ | lo <;>
        rcases hrm : p.radius_miles with _ | rm <;>
          simp [matchesFilters, hla, hlo, hrm]
    · rcases hlo : p.longitude with _ | lo
      · rcases hrm : p.radius_miles with _ | rm <;>
          simp [matchesFilters, hla, hlo, hrm]
      · rcases hrm : p.radius_miles with _ | rm
        · simp [matchesFilters, hla, hlo, hrm]
        · exact absurd ⟨by simp [hla], by simp [hlo], by simp [hrm]⟩ h
  have hfil : db.filter (matchesFilters gd p) =
      db.filter (matchesFilters gd
        { p with latitude := none, longitude := none, radius_miles := none }) :=
    List.filter_congr hm
  simp only [list_resources]
  rcases hla : p.latitude with _ | la
  · rcases hlo : p.longitude with _ | lo <;>
      rcases hrm : p.radius_miles with _ | rm <;>
        simp [hla, hlo, hrm, hfil]
  · rcases hlo : p.longitude with _ | lo
    · rcases hrm : p.radius_miles with _ | rm <;>
        simp [hla, hlo, hrm, hfil]
    · rcases hrm : p.radius_miles with _ | rm
      · simp [hla, hlo, hrm, hfil]
      · exact absurd ⟨by simp [hla], by simp [hlo], by simp [hrm]⟩ h

/-- Bool comparators that are transitive and total sort into a `Pairwise`
page after `drop`/`offset` and `take`/`limit`. -/
theorem pairwise_page_of_mergeSort {α : Type} (le : α → α → Bool)
    (htrans : ∀ a b c, le a b → le b c → le a c)
    (htotal : ∀ a b, le a b || le b a) (l : List α) (o lim : Nat) :
    (((l.mergeSort le).drop o).take lim).Pairwise (fun a b => le a b = true) :=
  List.Pairwise.sublist
    ((List.take_sublist _ _).trans (List.drop_sublist _ _))
    (List.sorted_mergeSort htrans htotal l)

/-- Concrete distance oracle for witnesses: everything at distance 0. -/
def gd0 : Point → Point → ℚ := fun _ _ => 0

/-- Concrete active resource for witnesses and counterexamples. -/
def pantry : Resource :=
  { id := 1, resource_type := .food, name := "Pantry", county := "Oneida" }

/-- Concrete located resource for proximity witnesses. -/
def depot : Resource :=
  { id := 2, resource_type := .shelter, name := "Depot", county := "Vilas"
    location := some ⟨1, 2⟩ }

/-- Claim C1, amended: every listed resource is active and satisfies each
supplied filter, where a supplied empty-string `resource_type` or `county`
is ignored (Python truthiness) and the county filter is the SQL `ILIKE`
pattern `%county%` (which is a case-insensitive substring match exactly
when the supplied county contains no `%`/`_` wildcard). -/
theorem c1_filters_conjunctive (gd : Point → Point → ℚ) (db : List Resource)
    (p : ListParams) (r : Resource) (hr : r ∈ (list_resources gd db p).items) :
    r.is_active = true ∧
    (∀ s, p.resource_type = some s → s ≠ "" → r.resource_type.value = s) ∧
    (∀ c, p.county = some c → c ≠ "" →
      sqlILike r.county ("%" ++ c ++ "%") = true) ∧
    (∀ b, p.seasonal_winter = some b →
      r.seasonal_availability_winter = some b) := by
  have h := (mem_items_of_list_resources hr).2
  unfold matchesFilters at h
  simp only [Bool.and_eq_true] at h
  obtain ⟨⟨⟨⟨hact, hty⟩, hcty⟩, hwin⟩, -⟩ := h
  refine ⟨hact, ?_, ?_, ?_⟩
  · intro s hs hne
    rw [hs] at hty
    simpa [hne] using hty
  · intro c hc hne
    rw [hc] at hcty
    simpa [hne] using hcty
  · intro b hb
    rw [hb] at hwin
    simpa using hwin

/-- Witness for C1 at a concrete database and filter set. -/
theorem c1_filters_conjunctive_witness : pantry.resource_type.value = "food" :=
  ((c1_filters_conjunctive gd0 [pantry] { resource_type := some "food" } pantry
      (by simp [list_resources, matchesFilters, pantry, ResourceCategory.value])).2.1)
    "food" rfl (by decide)

/-- Claim C1 as frozen is false on two points, at explicit inputs: a call
supplying `resource_type = ""` returns a resource whose type value is not
`""` (the filter is skipped by Python truthiness, not applied), and a call
supplying `county = "o%a"` returns a resource whose county does not contain
`"o%a"` as a case-insensitive substring (`%` acts as an `ILIKE` wildcard,
not as a literal). -/
theorem c1_counterexample :
    (pantry ∈ (list_resources gd0 [pantry] { resource_type := some "" }).items ∧
      ¬ pantry.resource_type.value = "") ∧
    (pantry ∈ (list_resources gd0 [pantry] { county := some "o%a" }).items ∧
      ¬ ("o%a".data.map Char.toLower) <:+: (pantry.county.data.map Char.toLower)) := by
  refine ⟨⟨?_, by decide⟩, ?_, by decide⟩
  · simp [list_resources, matchesFilters, pantry]
  · simp [list_resources, matchesFilters, pantry, sqlILike, likeMatch]

/-- Claim C2: when latitude, longitude and radius_miles are all supplied,
every returned resource has a location within `radius_miles * 1609.34`
meters of the query point (resources outside the radius are excluded) and
the page is ordered by ascending distance from the query point; otherwise
the page is ordered by resource name. -/
theorem c2_proximity_filter_and_order (gd : Point → Point → ℚ)
    (db : List Resource) (p : ListParams) :
    (∀ la lo rm, p.latitude = some la → p.longitude = some lo →
      p.radius_miles = some rm →
      (∀ r ∈ (list_resources gd db p).items, ∃ loc, r.location = some loc ∧
        gd loc ⟨lo, la⟩ ≤ rm * (160934 / 100)) ∧
      (list_resources gd db p).items.Pairwise
        (fun a b => distTo gd lo la a ≤ distTo gd lo la b)) ∧
    (¬(p.latitude.isSome ∧ p.longitude.isSome ∧ p.radius_miles.isSome) →
      (list_resources gd db p).items.Pairwise (fun a b => a.name ≤ b.name)) := by
  have hname : ∀ (l : List Resource) (o lim : Nat),
      (((l.mergeSort nameLe).drop o).take lim).Pairwise
        (fun a b => a.name ≤ b.name) := by
    intro l o lim
    refine (pairwise_page_of_mergeSort nameLe ?_ ?_ l o lim).imp ?_
    · intro a b c hab hbc
      simp only [nameLe, decide_eq_true_eq] at *
      exact le_trans hab hbc
    · intro a b
      simpa [nameLe] using le_total a.name b.name
    · intro a b hab
      simpa [nameLe] using hab
  constructor
  · intro la lo rm hla hlo hrm
    constructor
    · intro r hr
      have h := (mem_items_of_list_resources hr).2
      unfold matchesFilters at h
      simp only [Bool.and_eq_true] at h
      have hprox := h.2
      rw [hla, hlo, hrm] at hprox
      rcases hl : r.location with _ | loc
      · rw [hl] at hprox
        simp at hprox
      · rw [hl] at hprox
        simp only [decide_eq_true_eq] at hprox
        exact ⟨loc, rfl, hprox⟩
    · have hitems : (list_resources gd db p).items
          = (((db.filter (matchesFilters gd p)).mergeSort
              (distLe gd lo la)).drop p.offset).take p.limit := by
        simp [list_resources, hla, hlo, hrm]
      rw [hitems]
      refine (pairwise_page_of_mergeSort (distLe gd lo la) ?_ ?_ _ _ _).imp ?_
      · intro a b c hab hbc
        simp only [distLe, decide_eq_true_eq] at *
        exact le_trans hab hbc
      · intro a b
        simpa [distLe] using le_total (distTo gd lo la a) (distTo gd lo la b)
      · intro a b hab
        simpa [distLe] using hab
  · intro h
    rcases hla : p.latitude with _ | la
    · rcases hlo : p.longitude with _ | lo <;>
        rcases hrm : p.radius_miles with _ | rm <;>
          · have hitems : (list_resources gd db p).items
                = (((db.filter (matchesFilters gd p)).mergeSort
                    nameLe).drop p.offset).take p.limit := by
              simp [list_resources, hla, hlo, hrm]
            rw [hitems]
            exact hname _ _ _
    · rcases hlo : p.longitude with _ | lo
      · rcases hrm : p.radius_miles with _ | rm <;>
          · have hitems : (list_resources gd db p).items
                = (((db.filter (matchesFilters gd p)).mergeSort
                    nameLe).drop p.offset).take p.limit := by
              simp [list_resources, hla, hlo, hrm]
            rw [hitems]
            exact hname _ _ _
      · rcases hrm : p.radius_miles with _ | rm
        · have hitems : (list_resources gd db p).items
              = (((db.filter (matchesFilters gd p)).mergeSort
                  nameLe).drop p.offset).take p.limit := by
            simp [list_resources, hla, hlo, hrm]
          rw [hitems]
          exact hname _ _ _
        · exact absurd ⟨by simp [hla], by simp [hlo], by simp [hrm]⟩ h

/-- Witness for C2 at a concrete database, query point and radius. -/
theorem c2_proximity_witness :
    ∃ loc, depot.location = some loc ∧
      gd0 loc ⟨3, 4⟩ ≤ 1 * (160934 / 100) :=
  (((c2_proximity_filter_and_order gd0 [depot]
        { latitude := some 4, longitude := some 3, radius_miles := some 1 }).1)
      4 3 1 rfl rfl rfl).1 depot
    (by norm_num [list_resources, matchesFilters, depot, gd0])

/-- Every row passing the listing query's filters is active. -/
theorem active_of_matchesFilters {gd : Point → Point → ℚ} {p : ListParams}
    {x : Resource} (h : matchesFilters gd p x = true) : x.is_active = true := by
  unfold matchesFilters at h
  simp only [Bool.and_eq_true] at h
  exact h.1.1.1.1

/-- Claim C3: deleting an existing resource succeeds, flips exactly its
`is_active` flag to false in place (same row count, all other rows and all
other fields untouched), after which the resource is invisible to the get
and list operations. -/
theorem c3_soft_delete (db : List Resource) (rid : Nat) (r : Resource)
    (hfind : db.find? (fun x => x.id == rid) = some r)
    (hnodup : (db.map Resource.id).Nodup) :
    (delete_resource (.ok ()) db rid).response = .ok () ∧
    (delete_resource (.ok ()) db rid).db.length = db.length ∧
    (∃ l1 l2, db = l1 ++ r :: l2 ∧
      (delete_resource (.ok ()) db rid).db
        = l1 ++ { r with is_active := false } :: l2) ∧
    get_resource (delete_resource (.ok ()) db rid).db rid
      = .error notFoundError ∧
    (∀ gd p x,
      x ∈ (list_resources gd (delete_resource (.ok ()) db rid).db p).items →
        x.id ≠ rid) := by
  obtain ⟨l1, l2, hdb, hl1, hrep⟩ :=
    replaceFirst_of_find? (fun x => { x with is_active := false }) hfind
  have hdel : delete_resource (.ok ()) db rid
      = ⟨replaceFirst (fun x => x.id == rid)
          (fun x => { x with is_active := false }) db, .ok ()⟩ := by
    simp [delete_resource, hfind]
  have hrid : r.id = rid := by simpa using List.find?_some hfind
  have hl2 : ∀ x ∈ l2, x.id ≠ rid := by
    rw [hdb, List.map_append, List.map_cons] at hnodup
    have h2 := (List.nodup_append.mp hnodup).2.1
    have h3 := (List.nodup_cons.mp h2).1
    intro x hx he
    exact h3 (List.mem_map.mpr ⟨x, hx, by rw [he, hrid]⟩)
  have hl1id : ∀ x ∈ l1, x.id ≠ rid := by
    intro x hx he
    have := hl1 x hx
    simp [he] at this
  have hget : (l1 ++ { r with is_active := false } :: l2).find?
      (fun x => x.id == rid && x.is_active) = none := by
    rw [List.find?_append]
    have h1 : l1.find? (fun x => x.id == rid && x.is_active) = none :=
      List.find?_eq_none.mpr (fun x hx => by simp [hl1id x hx])
    have h2 : ({ r with is_active := false } :: l2).find?
        (fun x => x.id == rid && x.is_active) = none := by
      rw [List.find?_cons_of_neg _ (by simp)]
      exact List.find?_eq_none.mpr (fun x hx => by simp [hl2 x hx])
    simp [h1, h2]
  refine ⟨by rw [hdel], by rw [hdel]; exact length_replaceFirst _ _ _,
    ⟨l1, l2, hdb, by rw [hdel]; exact hrep⟩, ?_, ?_⟩
  · rw [hdel]
    simp only []
    rw [hrep]
    simp [get_resource, hget]
  · intro gd p x hx
    have hmem := mem_items_of_list_resources hx
    have hact := active_of_matchesFilters hmem.2
    have hx2 := hmem.1
    rw [hdel] at hx2
    simp only [] at hx2
    rw [hrep] at hx2
    rcases List.mem_append.mp hx2 with h | h
    · exact hl1id x h
    · rcases List.mem_cons.mp h with rfl | h
      · simp at hact
      · exact hl2 x h

/-- Witness for C3 at a concrete one-row database. -/
theorem c3_soft_delete_witness :
    (delete_resource (.ok ()) [pantry] 1).response = .ok () :=
  (c3_soft_delete [pantry] 1 pantry rfl (by simp)).1

/-- Concrete create request for witnesses. -/
def mealsReq : ResourceCreate :=
  { resource_type := .food, name := "Meals", county := "Forest" }

/-- Claim C5: get/update on a missing-or-inactive target return the generic
404; on the write paths (create, update past its 404 check, delete past its
404 check) a failing commit rolls back — the stored state is unchanged —
and returns a 400 whose detail is the handler's message followed by the raw
exception text. -/
theorem c5_error_handling (db : List Resource) (rid newId now : Nat)
    (req : ResourceCreate) (u : ResourceUpdate) (e : String)
    (c : Except String Unit) :
    (db.find? (fun x => x.id == rid && x.is_active) = none →
      get_resource db rid = .error ⟨404, "Resource not found"⟩ ∧
      update_resource c db rid now u
        = ⟨db, .error ⟨404, "Resource not found"⟩⟩) ∧
    create_resource (.error e) db newId now req
      = ⟨db, .error ⟨400, "Error creating resource: " ++ e⟩⟩ ∧
    (∀ r, db.find? (fun x => x.id == rid && x.is_active) = some r →
      update_resource (.error e) db rid now u
        = ⟨db, .error ⟨400, "Error updating resource: " ++ e⟩⟩) ∧
    (∀ r, db.find? (fun x => x.id == rid) = some r →
      delete_resource (.error e) db rid
        = ⟨db, .error ⟨400, "Error deleting resource: " ++ e⟩⟩) := by
  refine ⟨?_, rfl, ?_, ?_⟩
  · intro h
    exact ⟨by simp [get_resource, h, notFoundError],
      by simp [update_resource, h, notFoundError]⟩
  · intro r hr
    simp [update_resource, hr]
  · intro r hr
    simp [delete_resource, hr]

/-- Witness for C5 at concrete databases, ids and exception text. -/
theorem c5_error_handling_witness :
    get_resource [pantry] 2 = .error ⟨404, "Resource not found"⟩ ∧
    create_resource (.error "boom") [pantry] 7 0 mealsReq
      = ⟨[pantry], .error ⟨400, "Error creating resource: boom"⟩⟩ ∧
    delete_resource (.error "boom") [pantry] 1
      = ⟨[pantry], .error ⟨400, "Error deleting resource: boom"⟩⟩ := by
  have h404 := c5_error_handling [pantry] 2 7 0 mealsReq {} "boom" (.ok ())
  have h400 := c5_error_handling [pantry] 1 7 0 mealsReq {} "boom" (.ok ())
  exact ⟨(h404.1 rfl).1, h404.2.1, h400.2.2.2 pantry rfl⟩

/-- Claim C7: after a successful create, fetching the returned id succeeds
and returns exactly the row built from the request: every submitted field
is stored unchanged, and the location is the point assembled from
latitude/longitude exactly when both were supplied. -/
theorem c7_create_then_get (db : List Resource) (newId now : Nat)
    (req : ResourceCreate) (hfresh : ∀ x ∈ db, x.id ≠ newId) :
    (create_resource (.ok ()) db newId now req).response
      = .ok (resourceOfCreate newId now req) ∧
    get_resource (create_resource (.ok ()) db newId now req).db newId
      = .ok (resourceOfCreate newId now req) ∧
    (resourceOfCreate newId now req).id = newId ∧
    (resourceOfCreate newId now req).resource_type = req.resource_type ∧
    (resourceOfCreate newId now req).name = req.name ∧
    (resourceOfCreate newId now req).description = req.description ∧
    (resourceOfCreate newId now req).address = req.address ∧
    (resourceOfCreate newId now req).county = req.county ∧
    (resourceOfCreate newId now req).town = req.town ∧
    (resourceOfCreate newId now req).phone = req.phone ∧
    (resourceOfCreate newId now req).email = req.email ∧
    (resourceOfCreate newId now req).website = req.website ∧
    (resourceOfCreate newId now req).hours_of_operation
      = req.hours_of_operation ∧
    (resourceOfCreate newId now req).seasonal_availability_summer
      = some req.seasonal_availability_summer ∧
    (resourceOfCreate newId now req).seasonal_availability_winter
      = some req.seasonal_availability_winter ∧
    (resourceOfCreate newId now req).restrictions = req.restrictions ∧
    (resourceOfCreate newId now req).access_tier = req.access_tier ∧
    (resourceOfCreate newId now req).capacity = req.capacity ∧
    (resourceOfCreate newId now req).cost_info = req.cost_info ∧
    (resourceOfCreate newId now req).languages_supported
      = req.languages_supported ∧
    (resourceOfCreate newId now req).dump_station_fee = req.dump_station_fee ∧
    (resourceOfCreate newId now req).propane_price_per_gallon
      = req.propane_price_per_gallon ∧
    (resourceOfCreate newId now req).camping_nightly_rate
      = req.camping_nightly_rate ∧
    (resourceOfCreate newId now req).is_active = true ∧
    (resourceOfCreate newId now req).location
      = (match req.latitude, req.longitude with
         | some la, some lo => some ⟨lo, la⟩
         | _, _ => none) := by
  refine ⟨rfl, ?_, rfl, rfl, rfl, rfl, rfl, rfl, rfl, rfl, rfl, rfl, rfl,
    rfl, rfl, rfl, rfl, rfl, rfl, rfl, rfl, rfl, rfl, rfl, rfl⟩
  have hstate : (create_resource (.ok ()) db newId now req).db
      = db ++ [resourceOfCreate newId now req] := rfl
  rw [hstate]
  unfold get_resource
  rw [List.find?_append]
  have h1 : db.find? (fun x => x.id == newId && x.is_active) = none := by
    refine List.find?_eq_none.mpr (fun x hx => ?_)
    simp only [Bool.and_eq_true, beq_iff_eq, not_and]
    intro he
    exact absurd he (hfresh x hx)
  have h2 : [resourceOfCreate newId now req].find?
      (fun x => x.id == newId && x.is_active) = some (resourceOfCreate newId now req) :=
    List.find?_cons_of_pos _ (by simp [resourceOfCreate])
  rw [h1, h2]
  rfl

/-- Witness for C7 at a concrete database and request. -/
theorem c7_create_then_get_witness :
    get_resource (create_resource (.ok ()) [pantry] 7 3 mealsReq).db 7
      = .ok (resourceOfCreate 7 3 mealsReq) :=
  (c7_create_then_get [pantry] 7 3 mealsReq
      (by intro x hx; simp [pantry] at hx; simp [hx, pantry])).2.1

/-- Membership after `replaceFirst`: an old element or the image of one. -/
theorem mem_replaceFirst {α : Type} {p : α → Bool} {f : α → α} {l : List α}
    {x : α} (h : x ∈ replaceFirst p f l) : x ∈ l ∨ ∃ y, y ∈ l ∧ x = f y := by
  induction l with
  | nil => simp [replaceFirst] at h
  | cons a l ih =>
    by_cases hp : p a
    · simp only [replaceFirst, if_pos hp, List.mem_cons] at h
      rcases h with rfl | h
      · exact Or.inr ⟨a, List.mem_cons_self a l, rfl⟩
      · exact Or.inl (List.mem_cons_of_mem _ h)
    · simp only [replaceFirst, if_neg hp, List.mem_cons] at h
      rcases h with rfl | h
      · exact Or.inl (List.mem_cons_self _ _)
      · rcases ih h with h | ⟨y, hy, rfl⟩
        · exact Or.inl (List.mem_cons_of_mem _ h)
        · exact Or.inr ⟨y, List.mem_cons_of_mem _ hy, rfl⟩

/-- The verification-confidence bound of claim C8. -/
def confOK (r : Resource) : Prop :=
  0 ≤ r.verification_confidence ∧ r.verification_confidence ≤ 100

/-- Claim C8: a created row's verification confidence is the default 50
(the create/update schemas expose no confidence field), hence lies in
0..100, and the bound is an invariant of create, update and delete. -/
theorem c8_confidence_range (c : Except String Unit) (db : List Resource)
    (newId now rid : Nat) (req : ResourceCreate) (u : ResourceUpdate)
    (hdb : ∀ r ∈ db, confOK r) :
    (resourceOfCreate newId now req).verification_confidence = 50 ∧
    (∀ r ∈ (create_resource c db newId now req).db, confOK r) ∧
    (∀ r ∈ (update_resource c db rid now u).db, confOK r) ∧
    (∀ r ∈ (delete_resource c db rid).db, confOK r) := by
  have happly : ∀ x, (applyUpdate now u x).verification_confidence
      = x.verification_confidence := fun _ => rfl
  refine ⟨rfl, ?_, ?_, ?_⟩
  · cases c with
    | ok _ =>
      intro r hr
      rcases List.mem_append.mp hr with h | h
      · exact hdb r h
      · simp only [List.mem_singleton] at h
        subst h
        exact show (0:Int) ≤ 50 ∧ (50:Int) ≤ 100 from ⟨by decide, by decide⟩
    | error e => exact hdb
  · cases hfind : db.find? (fun x => x.id == rid && x.is_active) with
    | none =>
      intro r hr
      simp only [update_resource, hfind] at hr
      exact hdb r hr
    | some y =>
      cases c with
      | ok _ =>
        intro r hr
        simp only [update_resource, hfind] at hr
        rcases mem_replaceFirst hr with h | ⟨z, hz, rfl⟩
        · exact hdb r h
        · have hz2 := hdb z hz
          unfold confOK at hz2 ⊢
          rw [happly z]
          exact hz2
      | error e =>
        intro r hr
        simp only [update_resource, hfind] at hr
        exact hdb r hr
  · cases hfind : db.find? (fun x => x.id == rid) with
    | none =>
      intro r hr
      simp only [delete_resource, hfind] at hr
      exact hdb r hr
    | some y =>
      cases c with
      | ok _ =>
        intro r hr
        simp only [delete_resource, hfind] at hr
        rcases mem_replaceFirst hr with h | ⟨z, hz, rfl⟩
        · exact hdb r h
        · exact hdb z hz
      | error e =>
        intro r hr
        simp only [delete_resource, hfind] at hr
        exact hdb r hr

/-- Witness for C8 at a concrete database and request. -/
theorem c8_confidence_range_witness :
    (resourceOfCreate 7 0 mealsReq).verification_confidence = 50 :=
  (c8_confidence_range (.ok ()) [pantry] 7 0 1 mealsReq {}
      (by
        intro r hr
        simp only [List.mem_singleton] at hr
        subst hr
        exact ⟨by decide, by decide⟩)).1

/-- `replaceFirst` walks past a prefix with no match. -/
theorem replaceFirst_append_of_none {α : Type} {p : α → Bool} {f : α → α}
    {l1 : List α} (h : ∀ x ∈ l1, p x = false) (l2 : List α) :
    replaceFirst p f (l1 ++ l2) = l1 ++ replaceFirst p f l2 := by
  induction l1 with
  | nil => rfl
  | cons a l ih =>
    have ha := h a (List.mem_cons_self _ _)
    simp only [List.cons_append, replaceFirst, ha, Bool.false_eq_true, if_false,
      List.append_eq]
    rw [ih (fun x hx => h x (List.mem_cons_of_mem _ hx))]

/-- Concrete already-inactive resource for witnesses. -/
def closedCamp : Resource :=
  { id := 3, resource_type := .camping, name := "Closed Camp"
    county := "Iron", is_active := false }

/-- Claim C9: delete succeeds (204) exactly when a row with the id exists,
active or not, and 404s exactly when none does; deleting an already
soft-deleted resource succeeds again and leaves the state unchanged; yet
get and update answer 404 whenever no *active* row has the id. -/
theorem c9_delete_ignores_is_active (db : List Resource) (rid : Nat) :
    ((delete_resource (.ok ()) db rid).response = .ok ()
      ↔ (db.find? (fun x => x.id == rid)).isSome) ∧
    ((delete_resource (.ok ()) db rid).response = .error notFoundError
      ↔ db.find? (fun x => x.id == rid) = none) ∧
    (∀ r, db.find? (fun x => x.id == rid) = some r →
      delete_resource (.ok ()) (delete_resource (.ok ()) db rid).db rid
        = ⟨(delete_resource (.ok ()) db rid).db, .ok ()⟩) ∧
    (db.find? (fun x => x.id == rid && x.is_active) = none →
      get_resource db rid = .error notFoundError ∧
      ∀ now u, update_resource (.ok ()) db rid now u
        = ⟨db, .error notFoundError⟩) := by
  refine ⟨?_, ?_, ?_, ?_⟩
  · cases hf : db.find? (fun x => x.id == rid) with
    | none => simp [delete_resource, hf, notFoundError]
    | some y => simp [delete_resource, hf]
  · cases hf : db.find? (fun x => x.id == rid) with
    | none => simp [delete_resource, hf]
    | some y => simp [delete_resource, hf, notFoundError]
  · intro r hfind
    obtain ⟨l1, l2, hdb, hl1, hrep⟩ :=
      replaceFirst_of_find? (fun x => { x with is_active := false }) hfind
    have hrid : r.id = rid := by simpa using List.find?_some hfind
    have hstate : (delete_resource (.ok ()) db rid).db
        = l1 ++ { r with is_active := false } :: l2 := by
      simp only [delete_resource, hfind]
      exact hrep
    have hfind2 : (l1 ++ { r with is_active := false } :: l2).find?
        (fun x => x.id == rid) = some { r with is_active := false } := by
      rw [List.find?_append, List.find?_eq_none.mpr
        (fun x hx => by simp [hl1 x hx]), List.find?_cons_of_pos _ (by simp [hrid])]
      rfl
    have hrep2 : replaceFirst (fun x => x.id == rid)
        (fun x => { x with is_active := false })
        (l1 ++ { r with is_active := false } :: l2)
        = l1 ++ { r with is_active := false } :: l2 := by
      rw [replaceFirst_append_of_none hl1]
      simp only [replaceFirst, hrid, beq_self_eq_true, if_true]
    rw [hstate]
    simp only [delete_resource, hfind2]
    rw [hrep2]
  · intro h
    refine ⟨by simp [get_resource, h, notFoundError], fun now u => ?_⟩
    simp [update_resource, h, notFoundError]

/-- Witness for C9: deleting a row that is already inactive. -/
theorem c9_delete_ignores_is_active_witness :
    delete_resource (.ok ())
        (delete_resource (.ok ()) [closedCamp] 3).db 3
      = ⟨(delete_resource (.ok ()) [closedCamp] 3).db, .ok ()⟩ :=
  (c9_delete_ignores_is_active [closedCamp] 3).2.2.1 closedCamp rfl

/-- Witness for C6: latitude alone behaves as if no coordinates were sent. -/
theorem c6_partial_coordinates_witness :
    list_resources gd0 [pantry] { latitude := some 4 }
      = list_resources gd0 [pantry] {} :=
  c6_partial_coordinates_ignored gd0 [pantry] { latitude := some 4 } (by simp)

/-- Claim C10: a successful update modifies only the targeted row, leaves
`resource_type`, `county`, `access_tier`, `is_active`, `created_by` and
`created_at` unchanged (the update schema has no such fields), leaves every
field whose request entry was not supplied unchanged, and leaves the stored
location unchanged unless both latitude and longitude were supplied. -/
theorem c10_update_frame (db : List Resource) (rid now : Nat)
    (u : ResourceUpdate) (r : Resource)
    (hfind : db.find? (fun x => x.id == rid && x.is_active) = some r) :
    (update_resource (.ok ()) db rid now u).response
      = .ok (applyUpdate now u r) ∧
    (∃ l1 l2, db = l1 ++ r :: l2 ∧
      (update_resource (.ok ()) db rid now u).db
        = l1 ++ applyUpdate now u r :: l2) ∧
    (applyUpdate now u r).resource_type = r.resource_type ∧
    (applyUpdate now u r).county = r.county ∧
    (applyUpdate now u r).access_tier = r.access_tier ∧
    (applyUpdate now u r).is_active = r.is_active ∧
    (applyUpdate now u r).created_by = r.created_by ∧
    (applyUpdate now u r).created_at = r.created_at ∧
    (u.name = none → (applyUpdate now u r).name = r.name) ∧
    (u.description = none →
      (applyUpdate now u r).description = r.description) ∧
    (u.address = none → (applyUpdate now u r).address = r.address) ∧
    (u.phone = none → (applyUpdate now u r).phone = r.phone) ∧
    (u.email = none → (applyUpdate now u r).email = r.email) ∧
    (u.website = none → (applyUpdate now u r).website = r.website) ∧
    (u.hours_of_operation = none →
      (applyUpdate now u r).hours_of_operation = r.hours_of_operation) ∧
    (u.seasonal_availability_summer = none →
      (applyUpdate now u r).seasonal_availability_summer
        = r.seasonal_availability_summer) ∧
    (u.seasonal_availability_winter = none →
      (applyUpdate now u r).seasonal_availability_winter
        = r.seasonal_availability_winter) ∧
    (u.restrictions = none →
      (applyUpdate now u r).restrictions = r.restrictions) ∧
    (u.capacity = none → (applyUpdate now u r).capacity = r.capacity) ∧
    (u.cost_info = none → (applyUpdate now u r).cost_info = r.cost_info) ∧
    (u.dump_station_fee = none →
      (applyUpdate now u r).dump_station_fee = r.dump_station_fee) ∧
    (u.propane_price_per_gallon = none →
      (applyUpdate now u r).propane_price_per_gallon
        = r.propane_price_per_gallon) ∧
    (u.camping_nightly_rate = none →
      (applyUpdate now u r).camping_nightly_rate
        = r.camping_nightly_rate) ∧
    (u.latitude = none ∨ u.longitude = none →
      (applyUpdate now u r).location = r.location) := by
  obtain ⟨l1, l2, hdb, hl1, hrep⟩ :=
    replaceFirst_of_find? (applyUpdate now u) hfind
  refine ⟨by simp [update_resource, hfind],
    ⟨l1, l2, hdb, by simp only [update_resource, hfind]; exact hrep⟩,
    rfl, rfl, rfl, rfl, rfl, rfl,
    fun h => by simp [applyUpdate, h],
    fun h => by simp [applyUpdate, h],
    fun h => by simp [applyUpdate, h],
    fun h => by simp [applyUpdate, h],
    fun h => by simp [applyUpdate, h],
    fun h => by simp [applyUpdate, h],
    fun h => by simp [applyUpdate, h],
    fun h => by simp [applyUpdate, h],
    fun h => by simp [applyUpdate, h],
    fun h => by simp [applyUpdate, h],
    fun h => by simp [applyUpdate, h],
    fun h => by simp [applyUpdate, h],
    fun h => by simp [applyUpdate, h],
    fun h => by simp [applyUpdate, h],
    fun h => by simp [applyUpdate, h],
    ?_⟩
  intro h
  rcases h with h | h
  · simp [applyUpdate, h]
  · rcases hla : u.latitude with _ | la <;> simp [applyUpdate, h, hla]

/-- Witness for C10: the empty update request changes no frame field. -/
theorem c10_update_frame_witness :
    (update_resource (.ok ()) [pantry] 1 5 {}).response
      = .ok (applyUpdate 5 {} pantry) :=
  (c10_update_frame [pantry] 1 5 {} pantry rfl).1
